import Mathlib

/-! Shallow embedding of the m5tab_vnc repository: the M5GFX VNC display
driver (src/src/M5GFX_VNCDriver.cpp together with the class header) and the
gesture and screen-switching logic of src/src/main.cpp.  Machine integers
are modelled as Nat with explicit reduction modulo 2^32 where the C code
performs uint32_t arithmetic; signed 32-bit touch coordinates are modelled
as Int.  Every graphics or network side effect is recorded as an element of
an explicit call list, so that statements such as "no draw call is emitted"
or "exactly one request is issued" become statements about those lists.  A
C modulo whose divisor is zero is undefined behaviour; the one function
that can reach such a modulo returns Option and yields none in exactly
that case. -/

def U32 : Nat := 4294967296

/-- The 16-bit byte swap performed on every RGB565 pixel value, the C
expression being a shift right by 8 bitwise-or a shift left by 8, truncated
back to uint16_t. -/
def swap16 (c : Nat) : Nat := ((c / 256) ||| (c * 256)) % 65536

/-- uint32_t subtraction with wrap-around, used for all millis() time
differences in main.cpp. -/
def usub (a b : Nat) : Nat := (a + (U32 - b % U32)) % U32

/-- One call into the M5GFX drawing surface. -/
inductive DrawCall where
  | startWrite : DrawCall
  | endWrite : DrawCall
  | setAddrWindow (x y w h : Nat) : DrawCall
  | writePixel (x y color : Nat) : DrawCall
  | fillRect (x y w h color : Nat) : DrawCall
  | readRect (x y w h : Nat) : DrawCall
  | pushImage (x y w h : Nat) : DrawCall
  | fillScreen (color : Nat) : DrawCall
  | setTextColor (color : Nat) : DrawCall
  | setTextSize (n : Nat) : DrawCall
  | setCursor (x y : Int) : DrawCall
  | textOut (len : Nat) : DrawCall
deriving DecidableEq

/-- The mutable fields of the M5GFX_VNCDriver class. -/
structure DriverState where
  isPaused : Bool
  updateX : Nat
  updateY : Nat
  updateW : Nat
  updateH : Nat
  pixelCount : Nat
deriving DecidableEq

namespace M5GFX_VNCDriver

/-- The constructor initialisation list of M5GFX_VNCDriver. -/
def initialDriver : DriverState := ⟨false, 0, 0, 0, 0, 0⟩

/-- setPaused(bool) from the class header. -/
def setPaused (s : DriverState) (b : Bool) : DriverState := { s with isPaused := b }

/-- draw_area: blit a fully specified rectangle, byte-swapping each RGB565
pixel.  The loop runs w*h times over the data buffer in row-major order and
the whole call is skipped while paused.  (With w = 0 the loop bound w*h is
0, so the loop body and its modulo are never executed.) -/
def draw_area (s : DriverState) (x y w h : Nat) (data : List Nat) : List DrawCall :=
  if s.isPaused then []
  else
    [DrawCall.startWrite, DrawCall.setAddrWindow x y w h] ++
      ((List.range (w * h)).map fun i =>
        DrawCall.writePixel ((x + i % w) % U32) ((y + i / w) % U32)
          (swap16 (data.getD i 0))) ++
      [DrawCall.endWrite]

/-- draw_rect: fill a rectangle with a byte-swapped color; skipped while
paused. -/
def draw_rect (s : DriverState) (x y w h color : Nat) : List DrawCall :=
  if s.isPaused then [] else [DrawCall.fillRect x y w h (swap16 color)]

/-- copy_rect: read back the source region and push it to the destination.
allocOk models whether the heap_caps_malloc scratch buffer succeeded; on
failure the copy degrades to one row at a time.  Skipped while paused. -/
def copy_rect (s : DriverState) (src_x src_y dest_x dest_y w h : Nat)
    (allocOk : Bool) : List DrawCall :=
  if s.isPaused then []
  else if allocOk then
    [DrawCall.readRect src_x src_y w h, DrawCall.pushImage dest_x dest_y w h]
  else
    (List.range h).flatMap fun row =>
      [DrawCall.readRect src_x (src_y + row) w 1,
       DrawCall.pushImage dest_x (dest_y + row) w 1]

/-- area_update_start: record the update rectangle, reset the pixel
counter, and (only when not paused) open the batched write window. -/
def area_update_start (s : DriverState) (x y w h : Nat) :
    DriverState × List DrawCall :=
  ({ s with updateX := x, updateY := y, updateW := w, updateH := h, pixelCount := 0 },
   if s.isPaused then [] else [DrawCall.startWrite, DrawCall.setAddrWindow x y w h])

/-- The pixel loop body of area_update_data.  pc carries the running value
_pixelCount + i; each position is taken modulo 2^32 as the uint32_t sum is.
Every executed iteration computes pos % _updateW, so a nonempty pixel list
with _updateW = 0 reaches a modulo by zero: that undefined behaviour is the
none result. -/
def writePixelsFrom (X Y W pc : Nat) : List Nat → Option (List DrawCall)
  | [] => some []
  | c :: rest =>
    if W = 0 then none
    else
      match writePixelsFrom X Y W (pc + 1) rest with
      | none => none
      | some calls =>
        some (DrawCall.writePixel ((X + (pc % U32) % W) % U32)
                ((Y + (pc % U32) / W) % U32) (swap16 c) :: calls)

/-- area_update_data: while paused only advance the pixel counter;
otherwise write each pixel at its row-major position inside the update
rectangle and then advance the counter. -/
def area_update_data (s : DriverState) (pixels : List Nat) :
    Option (DriverState × List DrawCall) :=
  if s.isPaused then
    some ({ s with pixelCount := (s.pixelCount + pixels.length) % U32 }, [])
  else
    match writePixelsFrom s.updateX s.updateY s.updateW s.pixelCount pixels with
    | none => none
    | some calls =>
      some ({ s with pixelCount := (s.pixelCount + pixels.length) % U32 }, calls)

/-- area_update_end: close the write window when not paused and reset the
pixel counter. -/
def area_update_end (s : DriverState) : DriverState × List DrawCall :=
  ({ s with pixelCount := 0 }, if s.isPaused then [] else [DrawCall.endWrite])

/-- A sequence of area_update_data calls, threading the driver state and
concatenating the emitted draw calls. -/
def feedMany : DriverState → List (List Nat) → Option (DriverState × List DrawCall)
  | s, [] => some (s, [])
  | s, chunk :: rest =>
    match area_update_data s chunk with
    | none => none
    | some (s1, calls) =>
      match feedMany s1 rest with
      | none => none
      | some (s2, calls2) => some (s2, calls ++ calls2)

/-- printScreen: a centred two-line status message; a no-op while paused. -/
def printScreen (s : DriverState) (title msg : String) (color : Nat)
    (gfxW gfxH : Int) : List DrawCall :=
  if s.isPaused then []
  else
    [DrawCall.fillScreen 0, DrawCall.setTextColor color, DrawCall.setTextSize 2,
     DrawCall.setCursor
       (if 0 < (gfxW - title.length * 12) / 2 then (gfxW - title.length * 12) / 2 else 10)
       (gfxH / 2 - 30),
     DrawCall.textOut title.length,
     DrawCall.setCursor
       (if 0 < (gfxW - msg.length * 12) / 2 then (gfxW - msg.length * 12) / 2 else 10)
       (gfxH / 2 + 10),
     DrawCall.textOut msg.length]

/-- print: text at the current cursor; a no-op while paused. -/
def print (s : DriverState) (text : String) : List DrawCall :=
  if s.isPaused then [] else [DrawCall.textOut text.length]

/-- clear: fill the whole screen; a no-op while paused. -/
def clear (s : DriverState) (color : Nat) : List DrawCall :=
  if s.isPaused then [] else [DrawCall.fillScreen color]

end M5GFX_VNCDriver

/-- Row-major pixel placement exactly as the specification words it: the
pixel at overall stream position k lands at (x + k % w, y + k / w),
byte-swapped.  Used to compare the driver streaming writes against the
specified coverage of the rectangle. -/
def rowMajorWrites (x y w : Nat) : Nat → List Nat → List DrawCall
  | _, [] => []
  | k, c :: rest =>
    DrawCall.writePixel (x + k % w) (y + k / w) (swap16 c) ::
      rowMajorWrites x y w (k + 1) rest

/-- The coordinates touched by the writePixel calls of a draw-call list. -/
def callCoords : List DrawCall → List (Nat × Nat)
  | [] => []
  | DrawCall.writePixel a b _ :: rest => (a, b) :: callCoords rest
  | _ :: rest => callCoords rest

/-- One observable action of the application layer in main.cpp: remote
pointer and key events, session requests, and local screen operations. -/
inductive AppAct where
  | mouseEvent (x y : Int) (buttons : Nat) : AppAct
  | keyEvent (keysym : Nat) (down : Bool) : AppAct
  | forceFullUpdate : AppAct
  | setPausedDrv (b : Bool) : AppAct
  | fillScreenBlack : AppAct
  | renderConnectionInfo : AppAct
deriving DecidableEq

/-- The global mutable variables of main.cpp that the gesture and
screen-switching logic reads and writes. -/
structure AppState where
  lastTouchX : Int
  lastTouchY : Int
  wasTouched : Bool
  twoFingerScrollActive : Bool
  scrollStartY : Int
  lastScrollY : Int
  lastScrollTime : Nat
  wifiConnected : Bool
  vncConnected : Bool
  vncScreenPaused : Bool
  showingInfoScreen : Bool
  screenJustSwitched : Bool
  lastThreeTouchTime : Nat
  swipeInProgress : Bool
  swipeStartX : Int
  swipeStartY : Int
  swipeStartTime : Nat
  driverPaused : Bool
deriving DecidableEq

/-- The initial values of the globals in main.cpp. -/
def initialApp : AppState :=
  ⟨0, 0, false, false, 0, 0, 0, false, false, false, false, false, 0, false, 0, 0, 0, false⟩

/-- cardKBToKeysym from main.cpp: printable ASCII maps to itself, the
listed special codes map to X11 keysyms, everything else maps to 0. -/
def cardKBToKeysym (c : Nat) : Nat :=
  if 32 ≤ c ∧ c ≤ 126 then c
  else if c = 10 ∨ c = 13 then 0xff0d
  else if c = 8 then 0xff08
  else if c = 27 then 0xff1b
  else if c = 9 then 0xff09
  else if c = 0xb4 then 0xff51
  else if c = 0xb7 then 0xff53
  else if c = 0xb5 then 0xff52
  else if c = 0xb6 then 0xff54
  else if c = 0xff then 0xffff
  else 0

/-- The CardKB handling block of loop() in main.cpp: when the keyboard is
available and the polled byte is nonzero, the byte is translated and a key
press immediately followed by a key release is sent whenever the vnc
client object exists. -/
def loopKeyEvents (cardkbAvailable vncPresent : Bool) (c : Nat) : List AppAct :=
  if cardkbAvailable = true ∧ c ≠ 0 then
    if vncPresent then
      [AppAct.keyEvent (cardKBToKeysym c) true, AppAct.keyEvent (cardKBToKeysym c) false]
    else []
  else []

/-- pauseVNCScreen from main.cpp. -/
def pauseVNCScreen (s : AppState) (displayPresent : Bool) : AppState × List AppAct :=
  if displayPresent then
    ({ s with driverPaused := true, vncScreenPaused := true }, [AppAct.setPausedDrv true])
  else (s, [])

/-- resumeVNCScreen from main.cpp: clear the pause flags and, when the vnc
client exists and is connected, request one full screen update. -/
def resumeVNCScreen (s : AppState) (displayPresent vncPresent vncConn : Bool) :
    AppState × List AppAct :=
  if displayPresent then
    if vncPresent && vncConn then
      ({ s with driverPaused := false, vncScreenPaused := false },
       [AppAct.setPausedDrv false, AppAct.forceFullUpdate])
    else
      ({ s with driverPaused := false, vncScreenPaused := false },
       [AppAct.setPausedDrv false])
  else (s, [])

/-- showInfoScreen from main.cpp: release a held pointer, reset the scroll
state, pause the driver, mark the info screen as showing, and render the
connection information. -/
def showInfoScreen (s : AppState) (displayPresent vncPresent : Bool) :
    AppState × List AppAct :=
  let rel : List AppAct :=
    if vncPresent && s.wasTouched then [AppAct.mouseEvent s.lastTouchX s.lastTouchY 0] else []
  let s1 : AppState :=
    if vncPresent && s.wasTouched then { s with wasTouched := false } else s
  let s2 : AppState := { s1 with twoFingerScrollActive := false }
  let r := pauseVNCScreen s2 displayPresent
  ({ r.1 with showingInfoScreen := true }, rel ++ r.2 ++ [AppAct.renderConnectionInfo])

/-- showVNCScreen from main.cpp: stop showing the info screen, clear the
display to black, and resume the driver. -/
def showVNCScreen (s : AppState) (displayPresent vncPresent vncConn : Bool) :
    AppState × List AppAct :=
  let r := resumeVNCScreen { s with showingInfoScreen := false }
             displayPresent vncPresent vncConn
  (r.1, AppAct.fillScreenBlack :: r.2)

/-- checkMultiTouch from main.cpp: on three or more touches past the 500 ms
debounce, return to the live screen when the info screen is showing,
otherwise force a full screen refresh when connected. -/
def checkMultiTouch (s : AppState) (touchCount : Nat) (now : Nat)
    (displayPresent vncPresent vncConn : Bool) : AppState × List AppAct :=
  if 3 ≤ touchCount then
    if 500 < usub now s.lastThreeTouchTime then
      if s.showingInfoScreen then
        showVNCScreen { s with lastThreeTouchTime := now, screenJustSwitched := true }
          displayPresent vncPresent vncConn
      else
        ({ s with lastThreeTouchTime := now },
         if vncPresent && vncConn then [AppAct.forceFullUpdate] else [])
    else (s, [])
  else (s, [])

/-- checkSwipeGesture from main.cpp: track a single-touch swipe that starts
in the 50 px top band; complete it into showInfoScreen when the travel,
drift and time conditions are met, cancel it on timeout, touch-count
change, or release. -/
def checkSwipeGesture (s : AppState) (touchCount : Nat) (pressed : Bool)
    (x y : Int) (now : Nat) (displayPresent vncPresent : Bool) :
    AppState × List AppAct :=
  if touchCount ≠ 1 then ({ s with swipeInProgress := false }, [])
  else if pressed then
    if s.swipeInProgress = false then
      if y ≤ 50 then
        if vncPresent && s.wasTouched then
          ({ s with swipeInProgress := true, swipeStartX := x, swipeStartY := y,
                    swipeStartTime := now, wasTouched := false },
           [AppAct.mouseEvent s.lastTouchX s.lastTouchY 0])
        else
          ({ s with swipeInProgress := true, swipeStartX := x, swipeStartY := y,
                    swipeStartTime := now }, [])
      else (s, [])
    else
      if 100 ≤ y - s.swipeStartY ∧ (x - s.swipeStartX).natAbs < 100 ∧
          usub now s.swipeStartTime < 1000 then
        let r := showInfoScreen { s with screenJustSwitched := true }
                   displayPresent vncPresent
        ({ r.1 with swipeInProgress := false }, r.2)
      else if 1000 ≤ usub now s.swipeStartTime then
        ({ s with swipeInProgress := false }, [])
      else (s, [])
  else ({ s with swipeInProgress := false }, [])

/-- handleTouch from main.cpp, run on the vnc task: early exits for a
missing client, a swipe in progress, and the screen-switch guard; then the
two-finger scroll machine, then single-touch drag and release. -/
def handleTouch (s : AppState) (vncPresent : Bool) (touchCount : Nat)
    (pressed : Bool) (x y : Int) (now : Nat) : AppState × List AppAct :=
  if vncPresent = false then (s, [])
  else if s.swipeInProgress then (s, [])
  else if s.screenJustSwitched then
    (if touchCount = 0 then { s with screenJustSwitched := false } else s, [])
  else if touchCount = 2 then
    if s.twoFingerScrollActive = false then
      if s.wasTouched then
        ({ s with twoFingerScrollActive := true, scrollStartY := y, lastScrollY := y,
                  wasTouched := false },
         [AppAct.mouseEvent s.lastTouchX s.lastTouchY 0])
      else
        ({ s with twoFingerScrollActive := true, scrollStartY := y, lastScrollY := y }, [])
    else
      if 50 ≤ (s.lastScrollY - y).natAbs ∧ 100 ≤ usub now s.lastScrollTime then
        ({ s with lastScrollY := y, lastScrollTime := now },
         if 0 < s.lastScrollY - y then
           [AppAct.mouseEvent x y 8, AppAct.mouseEvent x y 0]
         else
           [AppAct.mouseEvent x y 16, AppAct.mouseEvent x y 0])
      else (s, [])
  else
    if touchCount = 1 ∧ pressed = true then
      if s.wasTouched = false ∨ x ≠ s.lastTouchX ∨ y ≠ s.lastTouchY then
        ({ s with twoFingerScrollActive := false, lastTouchX := x, lastTouchY := y,
                  wasTouched := true },
         [AppAct.mouseEvent x y 1])
      else ({ s with twoFingerScrollActive := false }, [])
    else if s.wasTouched then
      ({ s with twoFingerScrollActive := false, wasTouched := false },
       [AppAct.mouseEvent s.lastTouchX s.lastTouchY 0])
    else ({ s with twoFingerScrollActive := false }, [])

/-- One tick of input as seen by the vnc task; swipeFlag is the value of
the shared swipeInProgress variable at that instant, which the other core
may have changed between ticks. -/
structure TickIn where
  touchCount : Nat
  pressed : Bool
  x : Int
  y : Int
  now : Nat
  swipeFlag : Bool
deriving DecidableEq

/-- Repeated handleTouch ticks, threading the application state and
concatenating the emitted actions.  Before each tick the shared
swipeInProgress variable takes the value the tick observed. -/
def handleRun : AppState → List TickIn → AppState × List AppAct
  | s, [] => (s, [])
  | s, t :: rest =>
    let r := handleTouch { s with swipeInProgress := t.swipeFlag } true
               t.touchCount t.pressed t.x t.y t.now
    let r2 := handleRun r.1 rest
    (r2.1, r.2 ++ r2.2)

/-- The scroll ticks emitted over a sequence of two-finger ticks: each tick
runs handleTouch with touch count 2 and records (y, now) when events were
sent. -/
def scrollEmissions : AppState → List TickIn → List (Int × Nat)
  | _, [] => []
  | s, t :: rest =>
    let r := handleTouch s true 2 t.pressed t.x t.y t.now
    if r.2.isEmpty then scrollEmissions r.1 rest
    else (t.y, t.now) :: scrollEmissions r.1 rest

/-- C1: the claim states that a streaming update begun with width 0 never
reaches a division or modulo by that zero width for any pause state, the
update being treated as a no-op.  The code violates this: with the driver
not paused, feeding one pixel after area_update_start with w = 0 executes
pos % _updateW with _updateW = 0, a modulo by zero (the none result
below); only the paused path is the claimed accounting-only no-op. -/
theorem C1_zero_width_reaches_modulo :
    M5GFX_VNCDriver.area_update_data
        ((M5GFX_VNCDriver.area_update_start M5GFX_VNCDriver.initialDriver 0 0 0 4).1) [4660]
      = none ∧
    M5GFX_VNCDriver.area_update_data
        ((M5GFX_VNCDriver.area_update_start
           (M5GFX_VNCDriver.setPaused M5GFX_VNCDriver.initialDriver true) 0 0 0 4).1) [4660]
      = some (⟨true, 0, 0, 0, 4, 1⟩, []) := by decide

/-- C2 counterexample: byte 0x01 is unmapped and cardKBToKeysym gives the
sentinel 0, yet the main loop still sends a key press and a key release
with keysym 0 to the session, contradicting the claim that no key event at
all is sent for such a byte. -/
theorem C2_counterexample :
    cardKBToKeysym 1 = 0 ∧
    loopKeyEvents true true 1 = [AppAct.keyEvent 0 true, AppAct.keyEvent 0 false] := by
  decide

/-- C2 amended: every key-device byte outside the mapping table resolves to
the sentinel value 0, but the main loop does not drop it: for any such
nonzero byte, with the keyboard available and the client present, a press
and a release with keysym 0 are still sent; only the idle byte 0 produces
no event. -/
theorem C2_unmapped_byte_sends_keysym_zero (c : Nat)
    (hascii : ¬ (32 ≤ c ∧ c ≤ 126))
    (hspec : c ∉ [10, 13, 8, 27, 9, 0xb4, 0xb7, 0xb5, 0xb6, 0xff]) :
    cardKBToKeysym c = 0 ∧
    (c ≠ 0 → loopKeyEvents true true c
        = [AppAct.keyEvent 0 true, AppAct.keyEvent 0 false]) ∧
    loopKeyEvents true true 0 = [] := by
  simp only [List.mem_cons, List.not_mem_nil, or_false] at hspec
  push_neg at hspec
  obtain ⟨h1, h2, h3, h4, h5, h6, h7, h8, h9, h10⟩ := hspec
  have hmap : cardKBToKeysym c = 0 := by
    simp [cardKBToKeysym, hascii, h1, h2, h3, h4, h5, h6, h7, h8, h9, h10]
  refine ⟨hmap, fun hc => ?_, by decide⟩
  simp [loopKeyEvents, hc, hmap]

/-- C2 amended witness at the concrete unmapped byte 0x01. -/
theorem C2_unmapped_byte_witness :
    cardKBToKeysym 1 = 0 ∧
    ((1 : Nat) ≠ 0 → loopKeyEvents true true 1
        = [AppAct.keyEvent 0 true, AppAct.keyEvent 0 false]) ∧
    loopKeyEvents true true 0 = [] :=
  C2_unmapped_byte_sends_keysym_zero 1 (by decide) (by decide)

/-- C3 counterexample: in Live mode with the info overlay not showing, a
tick with three pointers 1000 ms after the last toggle does not switch the
mode to the info overlay, does not pause the adapter and renders no
overlay content; it only issues a force-full-redraw.  This refutes the
claim that a toggle-overlay action occurs on such a tick. -/
theorem C3_counterexample :
    (checkMultiTouch initialApp 3 1000 true true true).1.showingInfoScreen = false ∧
    (checkMultiTouch initialApp 3 1000 true true true).1.driverPaused = false ∧
    AppAct.renderConnectionInfo ∉ (checkMultiTouch initialApp 3 1000 true true true).2 ∧
    (checkMultiTouch initialApp 3 1000 true true true).2 = [AppAct.forceFullUpdate] := by
  decide

/-- C3 amended: on every input tick in Live mode with three or more
pointers past the 500 ms debounce window, the code refreshes the debounce
timestamp and, exactly when the session client exists and is connected,
issues one force-full-redraw request; the mode stays Live and the adapter
is not paused (the Live to InfoOverlay transition with pause and overlay
rendering happens only through the swipe gesture via showInfoScreen). -/
theorem C3_live_three_finger_forces_refresh (s : AppState) (touchCount now : Nat)
    (dP vP vC : Bool) (hlive : s.showingInfoScreen = false)
    (h3 : 3 ≤ touchCount) (hdeb : 500 < usub now s.lastThreeTouchTime) :
    checkMultiTouch s touchCount now dP vP vC
      = ({ s with lastThreeTouchTime := now },
         if vP && vC then [AppAct.forceFullUpdate] else []) := by
  simp [checkMultiTouch, h3, hdeb, hlive]

/-- C3 amended witness: the concrete Live-mode tick of the counterexample. -/
theorem C3_live_three_finger_witness :
    checkMultiTouch initialApp 3 1000 true true true
      = ({ initialApp with lastThreeTouchTime := 1000 },
         if true && true then [AppAct.forceFullUpdate] else []) :=
  C3_live_three_finger_forces_refresh initialApp 3 1000 true true true rfl
    (by decide) (by decide)

/-- C9: every resume transition through resumeVNCScreen, and through
showVNCScreen which calls it, issues exactly one force-full-redraw request
when the session client exists and is connected, and none otherwise. -/
theorem C9_resume_forces_one_full_redraw (s : AppState) (dP vP vC : Bool) :
    List.count AppAct.forceFullUpdate (resumeVNCScreen s dP vP vC).2
      = (if dP && (vP && vC) then 1 else 0) ∧
    List.count AppAct.forceFullUpdate (showVNCScreen s dP vP vC).2
      = (if dP && (vP && vC) then 1 else 0) := by
  cases dP <;> cases vP <;> cases vC <;> exact ⟨rfl, rfl⟩

/-- C10: while the pause flag is set, the local status helpers printScreen,
print and clear emit no draw calls at all, so a status message rendered
during pause cannot overwrite overlay content on the shared surface. -/
theorem C10_paused_status_helpers (s : DriverState) (hp : s.isPaused = true)
    (title msg text : String) (color c2 : Nat) (gfxW gfxH : Int) :
    M5GFX_VNCDriver.printScreen s title msg color gfxW gfxH = [] ∧
    M5GFX_VNCDriver.print s text = [] ∧
    M5GFX_VNCDriver.clear s c2 = [] := by
  refine ⟨?_, ?_, ?_⟩ <;>
    simp [M5GFX_VNCDriver.printScreen, M5GFX_VNCDriver.print,
      M5GFX_VNCDriver.clear, hp]

/-- C10 witness at a concretely paused driver. -/
theorem C10_paused_status_helpers_witness :
    M5GFX_VNCDriver.printScreen
        (M5GFX_VNCDriver.setPaused M5GFX_VNCDriver.initialDriver true)
        ("Connecting VNC") ("host") 7 1280 720 = [] ∧
    M5GFX_VNCDriver.print
        (M5GFX_VNCDriver.setPaused M5GFX_VNCDriver.initialDriver true) (".") = [] ∧
    M5GFX_VNCDriver.clear
        (M5GFX_VNCDriver.setPaused M5GFX_VNCDriver.initialDriver true) 0 = [] :=
  C10_paused_status_helpers _ rfl ("Connecting VNC") ("host") (".") 7 0 1280 720

-- While paused, one feed only advances the pixel counter, and a feed
-- sequence accumulates the counter modulo 2^32 with no draw calls.
theorem feedMany_paused (chunks : List (List Nat)) :
    ∀ s : DriverState, s.isPaused = true → s.pixelCount < U32 →
      M5GFX_VNCDriver.feedMany s chunks
        = some ({ s with
                   pixelCount := (s.pixelCount + (chunks.map List.length).sum) % U32 },
                []) := by
  induction chunks with
  | nil =>
    intro s hp hlt
    obtain ⟨p, ux, uy, uw, uh, pc⟩ := s
    simp only at hp hlt
    simp [M5GFX_VNCDriver.feedMany, Nat.mod_eq_of_lt hlt]
  | cons chunk rest ih =>
    intro s hp hlt
    obtain ⟨p, ux, uy, uw, uh, pc⟩ := s
    simp only at hp hlt
    subst hp
    have h1 : M5GFX_VNCDriver.area_update_data ⟨true, ux, uy, uw, uh, pc⟩ chunk
        = some (⟨true, ux, uy, uw, uh, (pc + chunk.length) % U32⟩, []) := by
      simp [M5GFX_VNCDriver.area_update_data]
    have h2 := ih ⟨true, ux, uy, uw, uh, (pc + chunk.length) % U32⟩ rfl
      (Nat.mod_lt _ (by simp [U32]))
    simp only [M5GFX_VNCDriver.feedMany, h1, h2]
    have hpc : ((pc + chunk.length) % U32 + (rest.map List.length).sum) % U32
        = (pc + (chunk.length + (rest.map List.length).sum)) % U32 := by
      simp only [U32]
      omega
    simp [hpc]

/-- C4: while the pause flag is set, every adapter operation emits zero
draw calls, and each feed still advances the pixel counter by exactly its
pixel count, so after any sequence of feeds following a stream begin the
counter equals the sum of the fed pixel counts (modulo 2^32, hence exactly
whenever that sum fits in uint32). -/
theorem C4_paused_no_draws_exact_accounting (s : DriverState) (hp : s.isPaused = true)
    (x y w h : Nat) (data : List Nat) (color : Nat)
    (sx sy dx dy cw ch : Nat) (allocOk : Bool) (chunks : List (List Nat)) :
    M5GFX_VNCDriver.draw_area s x y w h data = [] ∧
    M5GFX_VNCDriver.draw_rect s x y w h color = [] ∧
    M5GFX_VNCDriver.copy_rect s sx sy dx dy cw ch allocOk = [] ∧
    (M5GFX_VNCDriver.area_update_start s x y w h).2 = [] ∧
    (∀ chunk : List Nat,
      M5GFX_VNCDriver.area_update_data s chunk
        = some ({ s with pixelCount := (s.pixelCount + chunk.length) % U32 }, [])) ∧
    ∃ s2 : DriverState,
      M5GFX_VNCDriver.feedMany (M5GFX_VNCDriver.area_update_start s x y w h).1 chunks
        = some (s2, []) ∧
      s2.pixelCount = (chunks.map List.length).sum % U32 ∧
      ((chunks.map List.length).sum < U32 →
        s2.pixelCount = (chunks.map List.length).sum) ∧
      (M5GFX_VNCDriver.area_update_end s2).2 = [] := by
  refine ⟨by simp [M5GFX_VNCDriver.draw_area, hp],
          by simp [M5GFX_VNCDriver.draw_rect, hp],
          by simp [M5GFX_VNCDriver.copy_rect, hp],
          by simp [M5GFX_VNCDriver.area_update_start, hp],
          fun chunk => by simp [M5GFX_VNCDriver.area_update_data, hp],
          ?_⟩
  have hstart : (M5GFX_VNCDriver.area_update_start s x y w h).1
      = { s with updateX := x, updateY := y, updateW := w, updateH := h,
                 pixelCount := 0 } := rfl
  have hfeed := feedMany_paused chunks
    { s with updateX := x, updateY := y, updateW := w, updateH := h, pixelCount := 0 }
    (by simp [hp]) (by simp [U32])
  refine ⟨_, by rw [hstart, hfeed], by simp, fun hlt => by simp [Nat.mod_eq_of_lt hlt],
         by simp [M5GFX_VNCDriver.area_update_end, hp]⟩

/-- C4 witness at a concretely paused driver and a two-chunk feed. -/
theorem C4_paused_witness :
    M5GFX_VNCDriver.draw_area (M5GFX_VNCDriver.setPaused M5GFX_VNCDriver.initialDriver true)
        0 0 3 2 [1, 2] = [] ∧
    M5GFX_VNCDriver.draw_rect (M5GFX_VNCDriver.setPaused M5GFX_VNCDriver.initialDriver true)
        0 0 3 2 5 = [] ∧
    M5GFX_VNCDriver.copy_rect (M5GFX_VNCDriver.setPaused M5GFX_VNCDriver.initialDriver true)
        0 0 1 1 2 2 true = [] ∧
    (M5GFX_VNCDriver.area_update_start
        (M5GFX_VNCDriver.setPaused M5GFX_VNCDriver.initialDriver true) 0 0 3 2).2 = [] ∧
    (∀ chunk : List Nat,
      M5GFX_VNCDriver.area_update_data
          (M5GFX_VNCDriver.setPaused M5GFX_VNCDriver.initialDriver true) chunk
        = some ({ M5GFX_VNCDriver.setPaused M5GFX_VNCDriver.initialDriver true with
                   pixelCount := ((M5GFX_VNCDriver.setPaused M5GFX_VNCDriver.initialDriver
                     true).pixelCount + chunk.length) % U32 }, [])) ∧
    ∃ s2 : DriverState,
      M5GFX_VNCDriver.feedMany
          (M5GFX_VNCDriver.area_update_start
            (M5GFX_VNCDriver.setPaused M5GFX_VNCDriver.initialDriver true) 0 0 3 2).1
          [[7, 8], [9]]
        = some (s2, []) ∧
      s2.pixelCount = ([[7, 8], [9]].map List.length).sum % U32 ∧
      (([[7, 8], [9]].map List.length).sum < U32 →
        s2.pixelCount = ([[7, 8], [9]].map List.length).sum) ∧
      (M5GFX_VNCDriver.area_update_end s2).2 = [] :=
  C4_paused_no_draws_exact_accounting
    (M5GFX_VNCDriver.setPaused M5GFX_VNCDriver.initialDriver true) rfl
    0 0 3 2 [1, 2] 5 0 0 1 1 2 2 true [[7, 8], [9]]


-- While the screen-switch guard is set, any tick whose touch count is
-- nonzero or that observes the swipe flag leaves the guard set and emits
-- nothing.
theorem handleRun_guarded (ticks : List TickIn) :
    ∀ s : AppState, s.screenJustSwitched = true →
      (∀ t ∈ ticks, t.touchCount ≠ 0 ∨ t.swipeFlag = true) →
      (handleRun s ticks).1.screenJustSwitched = true ∧ (handleRun s ticks).2 = [] := by
  induction ticks with
  | nil => intro s hg _; exact ⟨hg, rfl⟩
  | cons t rest ih =>
    intro s hg hticks
    have ht := hticks t (List.mem_cons_self t rest)
    have hstep : handleTouch { s with swipeInProgress := t.swipeFlag } true
        t.touchCount t.pressed t.x t.y t.now
        = ({ s with swipeInProgress := t.swipeFlag }, []) := by
      rcases ht with h | h
      · cases hf : t.swipeFlag
        · simp [handleTouch, hf, hg, h]
        · simp [handleTouch, hf]
      · simp [handleTouch, h]
    have hrest := ih { s with swipeInProgress := t.swipeFlag } hg
      (fun u hu => hticks u (List.mem_cons_of_mem t hu))
    simp only [handleRun, hstep]
    exact ⟨hrest.1, by simp [hrest.2]⟩

-- handleRun distributes over list append.
theorem handleRun_append (a b : List TickIn) :
    ∀ s : AppState, handleRun s (a ++ b)
      = ((handleRun (handleRun s a).1 b).1,
         (handleRun s a).2 ++ (handleRun (handleRun s a).1 b).2) := by
  induction a with
  | nil => intro s; simp [handleRun]
  | cons t rest ih =>
    intro s
    simp only [List.cons_append, handleRun, List.append_eq]
    rw [ih]
    simp [List.append_assoc]

/-- C6 counterexample: with the transition guard set and the shared swipe
flag set, a handleTouch tick that observes touch count 0 leaves the guard
set, whereas the claim says the guard clears at the tick that observes
touch count 0; no events are emitted either way. -/
theorem C6_counterexample :
    (handleTouch { initialApp with screenJustSwitched := true, swipeInProgress := true }
        true 0 false 0 0 0).1.screenJustSwitched = true ∧
    (handleTouch { initialApp with screenJustSwitched := true, swipeInProgress := true }
        true 0 false 0 0 0).2 = [] := by decide

/-- C6 amended: after a mode switch sets the transition guard, handleTouch
sends no remote pointer events for any number of ticks whose touch count
is nonzero or that fall while the swipe flag is set, and the guard stays
set through all of them; the guard clears exactly at the first tick that
observes touch count 0 with no swipe in progress, and that tick also emits
nothing. -/
theorem C6_guard_suppresses_until_idle (s : AppState) (ticks : List TickIn) (t0 : TickIn)
    (hg : s.screenJustSwitched = true)
    (hticks : ∀ t ∈ ticks, t.touchCount ≠ 0 ∨ t.swipeFlag = true)
    (h0c : t0.touchCount = 0) (h0f : t0.swipeFlag = false) :
    (handleRun s ticks).1.screenJustSwitched = true ∧
    (handleRun s ticks).2 = [] ∧
    (handleRun s (ticks ++ [t0])).1.screenJustSwitched = false ∧
    (handleRun s (ticks ++ [t0])).2 = [] := by
  obtain ⟨hg1, he1⟩ := handleRun_guarded ticks s hg hticks
  refine ⟨hg1, he1, ?_, ?_⟩ <;>
    rw [handleRun_append] <;>
    simp [handleRun, handleTouch, h0c, h0f, hg1, he1]

/-- C6 amended witness: two guarded ticks with fingers down, then an idle
tick that clears the guard, with no events throughout. -/
theorem C6_guard_witness :
    (handleRun { initialApp with screenJustSwitched := true }
        [⟨2, true, 5, 5, 10, false⟩, ⟨1, true, 5, 6, 20, true⟩]).1.screenJustSwitched
      = true ∧
    (handleRun { initialApp with screenJustSwitched := true }
        [⟨2, true, 5, 5, 10, false⟩, ⟨1, true, 5, 6, 20, true⟩]).2 = [] ∧
    (handleRun { initialApp with screenJustSwitched := true }
        ([⟨2, true, 5, 5, 10, false⟩, ⟨1, true, 5, 6, 20, true⟩] ++
          [⟨0, false, 0, 0, 30, false⟩])).1.screenJustSwitched = false ∧
    (handleRun { initialApp with screenJustSwitched := true }
        ([⟨2, true, 5, 5, 10, false⟩, ⟨1, true, 5, 6, 20, true⟩] ++
          [⟨0, false, 0, 0, 30, false⟩])).2 = [] :=
  C6_guard_suppresses_until_idle { initialApp with screenJustSwitched := true }
    [⟨2, true, 5, 5, 10, false⟩, ⟨1, true, 5, 6, 20, true⟩]
    ⟨0, false, 0, 0, 30, false⟩ rfl (by decide) rfl rfl

/-- C8: a swipe starts on a single-touch press with y inside the 50 px top
band, recording its origin and emitting no overlay event; on a later tick
with vertical travel at least 100 px, horizontal drift under 100 px and
elapsed time under 1000 ms the overlay opens (showInfoScreen runs: info
screen showing, transition guard set) and the gesture ends; if instead the
timeout has elapsed, or the touch count moves away from 1, or the pointer
is released, the gesture is cancelled with no overlay-open event. -/
theorem C8_swipe_lifecycle (s : AppState) (touchCount : Nat) (pressed : Bool)
    (x y : Int) (now : Nat) (dP vP : Bool) :
    (s.swipeInProgress = false → touchCount = 1 → pressed = true → y ≤ 50 →
      (checkSwipeGesture s touchCount pressed x y now dP vP).1.swipeInProgress = true ∧
      (checkSwipeGesture s touchCount pressed x y now dP vP).1.swipeStartX = x ∧
      (checkSwipeGesture s touchCount pressed x y now dP vP).1.swipeStartY = y ∧
      (checkSwipeGesture s touchCount pressed x y now dP vP).1.swipeStartTime = now ∧
      (checkSwipeGesture s touchCount pressed x y now dP vP).1.showingInfoScreen
        = s.showingInfoScreen ∧
      AppAct.renderConnectionInfo ∉ (checkSwipeGesture s touchCount pressed x y now dP vP).2) ∧
    (s.swipeInProgress = true → touchCount = 1 → pressed = true →
      100 ≤ y - s.swipeStartY → (x - s.swipeStartX).natAbs < 100 →
      usub now s.swipeStartTime < 1000 →
      (checkSwipeGesture s touchCount pressed x y now dP vP).1.showingInfoScreen = true ∧
      (checkSwipeGesture s touchCount pressed x y now dP vP).1.swipeInProgress = false ∧
      (checkSwipeGesture s touchCount pressed x y now dP vP).1.screenJustSwitched = true ∧
      AppAct.renderConnectionInfo ∈ (checkSwipeGesture s touchCount pressed x y now dP vP).2) ∧
    (s.swipeInProgress = true → touchCount = 1 → pressed = true →
      1000 ≤ usub now s.swipeStartTime →
      checkSwipeGesture s touchCount pressed x y now dP vP
        = ({ s with swipeInProgress := false }, [])) ∧
    (touchCount ≠ 1 →
      checkSwipeGesture s touchCount pressed x y now dP vP
        = ({ s with swipeInProgress := false }, [])) ∧
    (touchCount = 1 → pressed = false →
      checkSwipeGesture s touchCount pressed x y now dP vP
        = ({ s with swipeInProgress := false }, [])) := by
  refine ⟨?_, ?_, ?_, ?_, ?_⟩
  · intro hsw h1 hpr hy
    by_cases hw : vP && s.wasTouched
    · simp [checkSwipeGesture, hsw, h1, hpr, hy, hw]
    · simp [checkSwipeGesture, hsw, h1, hpr, hy, hw]
  · intro hsw h1 hpr hdy hdx ht
    by_cases hw : vP = true ∧ s.wasTouched = true <;> by_cases hd : dP = true <;>
      simp [checkSwipeGesture, hsw, h1, hpr, hdy, hdx, ht, showInfoScreen,
        pauseVNCScreen, hw, hd]
  · intro hsw h1 hpr ht
    have hnc : ¬ (100 ≤ y - s.swipeStartY ∧ (x - s.swipeStartX).natAbs < 100 ∧
        usub now s.swipeStartTime < 1000) := by
      intro hcon
      omega
    simp [checkSwipeGesture, hsw, h1, hpr, hnc, ht]
  · intro h1
    simp [checkSwipeGesture, h1]
  · intro h1 hpr
    simp [checkSwipeGesture, h1, hpr]

/-- C8 witness: a concrete swipe from y = 10 in the top band completing at
y = 150 with drift 20 after 400 ms opens the overlay. -/
theorem C8_swipe_witness :
    (checkSwipeGesture
        { initialApp with swipeInProgress := true, swipeStartX := 10, swipeStartY := 10 }
        1 true 30 150 400 true true).1.showingInfoScreen = true ∧
    (checkSwipeGesture
        { initialApp with swipeInProgress := true, swipeStartX := 10, swipeStartY := 10 }
        1 true 30 150 400 true true).1.swipeInProgress = false ∧
    (checkSwipeGesture
        { initialApp with swipeInProgress := true, swipeStartX := 10, swipeStartY := 10 }
        1 true 30 150 400 true true).1.screenJustSwitched = true ∧
    AppAct.renderConnectionInfo ∈
      (checkSwipeGesture
        { initialApp with swipeInProgress := true, swipeStartX := 10, swipeStartY := 10 }
        1 true 30 150 400 true true).2 :=
  (C8_swipe_lifecycle
      { initialApp with swipeInProgress := true, swipeStartX := 10, swipeStartY := 10 }
      1 true 30 150 400 true true).2.1 rfl rfl rfl (by decide) (by decide) (by decide)

-- Wrapped uint32 subtraction is bounded by the true difference when the
-- inputs are ordered.
theorem usub_le_of_le (a b : Nat) (h : b ≤ a) : usub a b ≤ a - b := by
  simp only [usub, U32]
  omega

-- Consecutive scroll emissions, including the virtual one given by the
-- current anchor and last-sent time, are at least 100 ms and 50 px apart.
theorem scrollEmissions_chain (ticks : List TickIn) :
    ∀ s : AppState, s.twoFingerScrollActive = true → s.screenJustSwitched = false →
      s.swipeInProgress = false →
      List.Pairwise (fun a b : TickIn => a.now ≤ b.now) ticks →
      (∀ t ∈ ticks, s.lastScrollTime ≤ t.now) →
      List.Chain' (fun a b : Int × Nat => a.2 + 100 ≤ b.2 ∧ 50 ≤ (a.1 - b.1).natAbs)
        ((s.lastScrollY, s.lastScrollTime) :: scrollEmissions s ticks) := by
  induction ticks with
  | nil => intro s _ _ _ _ _; simp [scrollEmissions]
  | cons t rest ih =>
    intro s hA hG hS hmono hpast
    rw [List.pairwise_cons] at hmono
    by_cases hC : 50 ≤ (s.lastScrollY - t.y).natAbs ∧ 100 ≤ usub t.now s.lastScrollTime
    · have hstep : handleTouch s true 2 t.pressed t.x t.y t.now
          = ({ s with lastScrollY := t.y, lastScrollTime := t.now },
             if 0 < s.lastScrollY - t.y then
               [AppAct.mouseEvent t.x t.y 8, AppAct.mouseEvent t.x t.y 0]
             else [AppAct.mouseEvent t.x t.y 16, AppAct.mouseEvent t.x t.y 0]) := by
        simp [handleTouch, hS, hG, hA, hC]
      have hrec := ih { s with lastScrollY := t.y, lastScrollTime := t.now } hA hG hS
        hmono.2 (fun u hu => hmono.1 u hu)
      have hP : s.lastScrollTime + 100 ≤ t.now := by
        have h1 : s.lastScrollTime ≤ t.now := hpast t (List.mem_cons_self t rest)
        have h2 := usub_le_of_le t.now s.lastScrollTime h1
        omega
      by_cases hd : 0 < s.lastScrollY - t.y
      · simp only [scrollEmissions, hstep, hd, if_pos]
        simp only [List.isEmpty_cons]
        exact List.chain'_cons.mpr ⟨⟨hP, hC.1⟩, hrec⟩
      · simp only [scrollEmissions, hstep, hd, if_neg, if_false]
        simp only [List.isEmpty_cons]
        exact List.chain'_cons.mpr ⟨⟨hP, hC.1⟩, hrec⟩
    · have hstep : handleTouch s true 2 t.pressed t.x t.y t.now = (s, []) := by
        simp [handleTouch, hS, hG, hA, hC]
      simp only [scrollEmissions, hstep, List.isEmpty_nil]
      exact ih s hA hG hS hmono.2 (fun u hu => hpast u (List.mem_cons_of_mem t hu))

/-- C7: during an active two-finger scroll, a tick emits scroll events if
and only if the distance from the anchor is at least 50 px and at least
100 ms have passed since the last emission; on emission the anchor and the
last-sent time reset to the current values, and over any monotone sequence
of ticks consecutive emissions are at least 100 ms and 50 px apart. -/
theorem C7_scroll_rate_limit (s : AppState) (pressed : Bool) (x y : Int) (now : Nat)
    (ticks : List TickIn)
    (hA : s.twoFingerScrollActive = true) (hG : s.screenJustSwitched = false)
    (hS : s.swipeInProgress = false)
    (hmono : List.Pairwise (fun a b : TickIn => a.now ≤ b.now) ticks)
    (hpast : ∀ t ∈ ticks, s.lastScrollTime ≤ t.now) :
    ((handleTouch s true 2 pressed x y now).2 ≠ []
        ↔ (50 ≤ (s.lastScrollY - y).natAbs ∧ 100 ≤ usub now s.lastScrollTime)) ∧
    ((50 ≤ (s.lastScrollY - y).natAbs ∧ 100 ≤ usub now s.lastScrollTime) →
        (handleTouch s true 2 pressed x y now).1.lastScrollY = y ∧
        (handleTouch s true 2 pressed x y now).1.lastScrollTime = now) ∧
    List.Chain' (fun a b : Int × Nat => a.2 + 100 ≤ b.2 ∧ 50 ≤ (a.1 - b.1).natAbs)
      (scrollEmissions s ticks) := by
  refine ⟨?_, ?_, ?_⟩
  · by_cases hC : 50 ≤ (s.lastScrollY - y).natAbs ∧ 100 ≤ usub now s.lastScrollTime
    · by_cases hd : 0 < s.lastScrollY - y <;> simp [handleTouch, hS, hG, hA, hC, hd]
    · simp [handleTouch, hS, hG, hA, hC]
  · intro hC
    by_cases hd : 0 < s.lastScrollY - y <;> simp [handleTouch, hS, hG, hA, hC, hd]
  · exact (List.chain'_cons'.mp (scrollEmissions_chain ticks s hA hG hS hmono hpast)).2

/-- C7 witness: from a fresh scroll anchor, a 100 px move 150 ms in emits
one tick; repeating the same position 50 ms later emits nothing, so the
emission list is a single tick and the chain condition holds. -/
theorem C7_scroll_witness :
    ((handleTouch { initialApp with twoFingerScrollActive := true } true 2 true 0 100 150).2 ≠ []
        ↔ (50 ≤ ((0 : Int) - 100).natAbs ∧ 100 ≤ usub 150 0)) ∧
    ((50 ≤ ((0 : Int) - 100).natAbs ∧ 100 ≤ usub 150 0) →
        (handleTouch { initialApp with twoFingerScrollActive := true }
            true 2 true 0 100 150).1.lastScrollY = 100 ∧
        (handleTouch { initialApp with twoFingerScrollActive := true }
            true 2 true 0 100 150).1.lastScrollTime = 150) ∧
    List.Chain' (fun a b : Int × Nat => a.2 + 100 ≤ b.2 ∧ 50 ≤ (a.1 - b.1).natAbs)
      (scrollEmissions { initialApp with twoFingerScrollActive := true }
        [⟨2, true, 0, 100, 150, false⟩, ⟨2, true, 0, 100, 200, false⟩]) :=
  C7_scroll_rate_limit { initialApp with twoFingerScrollActive := true } true 0 100 150
    [⟨2, true, 0, 100, 150, false⟩, ⟨2, true, 0, 100, 200, false⟩] rfl rfl rfl
    (by decide) (by decide)

-- With a nonzero width and all positions inside a rectangle that fits in
-- uint32 range, the streaming pixel loop equals the row-major placement of
-- the specification.
theorem writePixelsFrom_eq_rowMajor (x y w h : Nat) (hw : 0 < w)
    (hxw : x + w ≤ U32) (hyh : y + h ≤ U32) (hwh : w * h < U32) :
    ∀ (pixels : List Nat) (n : Nat), n + pixels.length ≤ w * h →
      M5GFX_VNCDriver.writePixelsFrom x y w n pixels
        = some (rowMajorWrites x y w n pixels) := by
  intro pixels
  induction pixels with
  | nil => intro n hb; rfl
  | cons c rest ih =>
    intro n hb
    have hn : n < w * h := by
      simp only [List.length_cons] at hb; omega
    have hnU : n % U32 = n := Nat.mod_eq_of_lt (lt_of_lt_of_le hn (le_of_lt hwh))
    have h1 : n % w < w := Nat.mod_lt n hw
    have hx : (x + n % w) % U32 = x + n % w :=
      Nat.mod_eq_of_lt (lt_of_lt_of_le (Nat.add_lt_add_left h1 x) hxw)
    have h2 : n / w < h := (Nat.div_lt_iff_lt_mul hw).mpr (by rwa [Nat.mul_comm] at hn)
    have hy : (y + n / w) % U32 = y + n / w :=
      Nat.mod_eq_of_lt (lt_of_lt_of_le (Nat.add_lt_add_left h2 y) hyh)
    have hw0 : w ≠ 0 := Nat.pos_iff_ne_zero.mp hw
    have hrest : (n + 1) + rest.length ≤ w * h := by
      simp only [List.length_cons] at hb; omega
    simp only [M5GFX_VNCDriver.writePixelsFrom, hw0, if_false, ih (n + 1) hrest,
      rowMajorWrites, hnU, hx, hy]

-- Row-major placement distributes over list append, shifting the index.
theorem rowMajorWrites_append (x y w : Nat) (a : List Nat) :
    ∀ (b : List Nat) (n : Nat),
      rowMajorWrites x y w n (a ++ b)
        = rowMajorWrites x y w n a ++ rowMajorWrites x y w (n + a.length) b := by
  induction a with
  | nil => intro b n; simp [rowMajorWrites]
  | cons c rest ih =>
    intro b n
    simp only [List.cons_append, rowMajorWrites, List.append_eq, ih, List.length_cons]
    rw [show n + (rest.length + 1) = (n + 1) + rest.length by omega]

-- A whole feed sequence inside a fitting rectangle performs exactly the
-- row-major writes of the concatenated pixel stream.
theorem feedMany_stream (x y w h : Nat) (hw : 0 < w)
    (hxw : x + w ≤ U32) (hyh : y + h ≤ U32) (hwh : w * h < U32) :
    ∀ (chunks : List (List Nat)) (s : DriverState) (n : Nat),
      s.isPaused = false → s.updateX = x → s.updateY = y → s.updateW = w →
      s.pixelCount = n → n + (chunks.map List.length).sum ≤ w * h →
      M5GFX_VNCDriver.feedMany s chunks
        = some ({ s with pixelCount := (n + (chunks.map List.length).sum) % U32 },
                rowMajorWrites x y w n chunks.flatten) := by
  intro chunks
  induction chunks with
  | nil =>
    intro s n hp hX hY hW hpc hb
    have hn : n < U32 := by
      have h1 : n ≤ w * h := by simpa using hb
      exact lt_of_le_of_lt h1 hwh
    obtain ⟨p, ux, uy, uw, uh, pc⟩ := s
    simp only at hp hX hY hW hpc
    subst hp hX hY hW hpc
    simp [M5GFX_VNCDriver.feedMany, rowMajorWrites, Nat.mod_eq_of_lt hn]
  | cons chunk rest ih =>
    intro s n hp hX hY hW hpc hb
    have hbchunk : n + chunk.length ≤ w * h := by
      simp only [List.map_cons, List.sum_cons] at hb; omega
    have hwp := writePixelsFrom_eq_rowMajor x y w h hw hxw hyh hwh chunk n hbchunk
    have hdata : M5GFX_VNCDriver.area_update_data s chunk
        = some ({ s with pixelCount := (n + chunk.length) % U32 },
                rowMajorWrites x y w n chunk) := by
      simp [M5GFX_VNCDriver.area_update_data, hp, hX, hY, hW, hpc, hwp]
    have hmod : (n + chunk.length) % U32 = n + chunk.length :=
      Nat.mod_eq_of_lt (lt_of_le_of_lt hbchunk hwh)
    have hrec := ih { s with pixelCount := (n + chunk.length) % U32 } (n + chunk.length)
      (by simpa using hp) (by simpa using hX) (by simpa using hY) (by simpa using hW)
      (by simpa using hmod)
      (by simp only [List.map_cons, List.sum_cons] at hb; omega)
    simp only [M5GFX_VNCDriver.feedMany, hdata, hrec, List.flatten_cons,
      rowMajorWrites_append x y w chunk]
    have hassoc : n + chunk.length + (rest.map List.length).sum
        = n + (chunk.length + (rest.map List.length).sum) := by omega
    simp [hassoc]

-- The coordinates of the row-major writes are the shifted index range.
theorem callCoords_rowMajor (x y w : Nat) (pixels : List Nat) :
    ∀ n : Nat, callCoords (rowMajorWrites x y w n pixels)
      = (List.range' n pixels.length).map fun k => (x + k % w, y + k / w) := by
  induction pixels with
  | nil => intro n; rfl
  | cons c rest ih =>
    intro n
    simp only [rowMajorWrites, callCoords, List.length_cons, List.range'_succ,
      List.map_cons, ih]

-- Membership in the row-major coordinate range is exactly membership in
-- the rectangle.
theorem rectCoords_mem_iff (x y w h : Nat) (hw : 0 < w) (a b : Nat) :
    ((a, b) ∈ (List.range (w * h)).map fun k => (x + k % w, y + k / w))
      ↔ (x ≤ a ∧ a < x + w ∧ y ≤ b ∧ b < y + h) := by
  constructor
  · intro hmem
    simp only [List.mem_map, List.mem_range, Prod.mk.injEq] at hmem
    obtain ⟨k, hk, ha, hb2⟩ := hmem
    have h1 : k % w < w := Nat.mod_lt k hw
    have h2 : k / w < h := (Nat.div_lt_iff_lt_mul hw).mpr (by rwa [Nat.mul_comm] at hk)
    subst ha hb2
    exact ⟨Nat.le_add_right x _, Nat.add_lt_add_left h1 x,
           Nat.le_add_right y _, Nat.add_lt_add_left h2 y⟩
  · rintro ⟨hxa, haw, hyb, hbh⟩
    have hi : a - x < w := by omega
    have hj : b - y < h := by omega
    refine List.mem_map.mpr ⟨(b - y) * w + (a - x), List.mem_range.mpr ?_, ?_⟩
    · have hlt := Nat.add_lt_add_left hi ((b - y) * w)
      have hcle : ((b - y) + 1) * w ≤ h * w :=
        Nat.mul_le_mul_right w (by omega)
      calc (b - y) * w + (a - x) < (b - y) * w + w := hlt
        _ = ((b - y) + 1) * w := (Nat.succ_mul (b - y) w).symm
        _ ≤ h * w := hcle
        _ = w * h := Nat.mul_comm h w
    · have hmod : ((b - y) * w + (a - x)) % w = a - x := by
        rw [Nat.add_comm, Nat.add_mul_mod_self_right]
        exact Nat.mod_eq_of_lt hi
      have hdiv : ((b - y) * w + (a - x)) / w = b - y := by
        rw [Nat.add_comm, Nat.add_mul_div_right _ _ hw, Nat.div_eq_of_lt hi]
        omega
      simp only [hmod, hdiv, Prod.mk.injEq]
      constructor <;> omega

-- The row-major coordinate range has no duplicates.
theorem rectCoords_nodup (x y w h : Nat) (_hw : 0 < w) :
    ((List.range (w * h)).map fun k => (x + k % w, y + k / w)).Nodup := by
  refine List.Nodup.map ?_ (List.nodup_range _)
  intro a b hab
  simp only [Prod.mk.injEq] at hab
  have h1 : a % w = b % w := Nat.add_left_cancel hab.1
  have h2 : a / w = b / w := Nat.add_left_cancel hab.2
  calc a = w * (a / w) + a % w := (Nat.div_add_mod a w).symm
    _ = w * (b / w) + b % w := by rw [h1, h2]
    _ = b := Nat.div_add_mod b w

/-- C5: for a rectangle opened with positive width whose geometry fits in
uint32 range, any feed sequence whose pixel counts sum to w*h performs,
when not paused, exactly the row-major writes of the spec (the pixel at
stream position k goes to (x + k % w, y + k / w)); the coordinates written
are the row-major enumeration of the rectangle, with no duplicates, and a
pair is written if and only if it lies inside the rectangle. -/
theorem C5_streaming_covers_rectangle (x y w h : Nat) (chunks : List (List Nat))
    (s : DriverState) (hp : s.isPaused = false) (hw : 0 < w)
    (hxw : x + w ≤ U32) (hyh : y + h ≤ U32) (hwh : w * h < U32)
    (hsum : (chunks.map List.length).sum = w * h) :
    ∃ s2 : DriverState,
      M5GFX_VNCDriver.feedMany (M5GFX_VNCDriver.area_update_start s x y w h).1 chunks
        = some (s2, rowMajorWrites x y w 0 chunks.flatten) ∧
      callCoords (rowMajorWrites x y w 0 chunks.flatten)
        = (List.range (w * h)).map (fun k => (x + k % w, y + k / w)) ∧
      (callCoords (rowMajorWrites x y w 0 chunks.flatten)).Nodup ∧
      (∀ a b : Nat,
        (a, b) ∈ callCoords (rowMajorWrites x y w 0 chunks.flatten)
          ↔ (x ≤ a ∧ a < x + w ∧ y ≤ b ∧ b < y + h)) := by
  have hfeed := feedMany_stream x y w h hw hxw hyh hwh chunks
    (M5GFX_VNCDriver.area_update_start s x y w h).1 0
    (by simpa [M5GFX_VNCDriver.area_update_start] using hp) rfl rfl rfl rfl
    (by rw [hsum]; omega)
  have hlen : chunks.flatten.length = w * h := by
    rw [List.length_flatten, hsum]
  have hc2 : callCoords (rowMajorWrites x y w 0 chunks.flatten)
      = (List.range (w * h)).map (fun k => (x + k % w, y + k / w)) := by
    rw [callCoords_rowMajor x y w chunks.flatten 0, hlen, ← List.range_eq_range']
  refine ⟨_, hfeed, hc2, ?_, ?_⟩
  · rw [hc2]; exact rectCoords_nodup x y w h hw
  · intro a b; rw [hc2]; exact rectCoords_mem_iff x y w h hw a b

/-- C5 witness: a 2 by 2 rectangle at (1, 2) fed in chunks of 2 and 2
pixels covers exactly its four coordinates in row-major order. -/
theorem C5_streaming_witness :
    ∃ s2 : DriverState,
      M5GFX_VNCDriver.feedMany
          (M5GFX_VNCDriver.area_update_start M5GFX_VNCDriver.initialDriver 1 2 2 2).1
          [[0, 1], [2, 3]]
        = some (s2, rowMajorWrites 1 2 2 0 ([[0, 1], [2, 3]] : List (List Nat)).flatten) ∧
      callCoords (rowMajorWrites 1 2 2 0 ([[0, 1], [2, 3]] : List (List Nat)).flatten)
        = (List.range (2 * 2)).map (fun k => (1 + k % 2, 2 + k / 2)) ∧
      (callCoords (rowMajorWrites 1 2 2 0 ([[0, 1], [2, 3]] : List (List Nat)).flatten)).Nodup ∧
      (∀ a b : Nat,
        (a, b) ∈ callCoords (rowMajorWrites 1 2 2 0 ([[0, 1], [2, 3]] : List (List Nat)).flatten)
          ↔ (1 ≤ a ∧ a < 1 + 2 ∧ 2 ≤ b ∧ b < 2 + 2)) :=
  C5_streaming_covers_rectangle 1 2 2 2 [[0, 1], [2, 3]] M5GFX_VNCDriver.initialDriver
    rfl (by decide) (by decide) (by decide) (by decide) (by decide)
